import Mathlib

/-!
Verification of the Discord music bot's playback continuation state machine
(`src/music-bot.py`), shallowly embedded in Lean 4.

A queue entry in the source is a pair `(path, info)`; only the path
participates in the queue logic (dedup checks compare `item[0]`, file
existence and deletion act on the path), while the metadata dict only feeds
message rendering.  Tracks are therefore modelled as their path string.
-/

namespace MusicBot

/-- A queued track, identified by its downloaded file path
(source: queue entries `(path, info)`; metadata omitted, see above). -/
abbrev Track := String

/-- Per-session data: `self.queues[server_id] = {"queue": [...], "loop": bool,
"volume": float}` (music-bot.py lines 480-485).  The volume is stored as the
fraction `vol/100`, modelled as a rational. -/
structure SessionData where
  queue : List Track
  loop : Bool
  volume : Rat
deriving Repr, DecidableEq

/-- Global mutable bot state relevant to the claims: the session registry
`self.queues` (an association list keyed by server id) and the global
`self.skip_in_progress` set of server ids (lines 37, 63). -/
structure BotState where
  queues : List (Nat × SessionData)
  skipInProgress : List Nat
deriving Repr, DecidableEq

/-- `server_id in self.queues` / `self.queues[server_id]` lookup. -/
def getSession (st : BotState) (sid : Nat) : Option SessionData :=
  (st.queues.find? (fun e => e.1 = sid)).map (fun e => e.2)

/-- Replace the session data stored for `sid` (in-place queue mutation in the
source). -/
def setSession (st : BotState) (sid : Nat) (sd : SessionData) : BotState :=
  { st with queues := st.queues.map (fun e => if e.1 = sid then (sid, sd) else e) }

/-- `self.queues.pop(server_id, None)`. -/
def removeSession (st : BotState) (sid : Nat) : BotState :=
  { st with queues := st.queues.filter (fun e => ¬ e.1 = sid) }

/-- `self.skip_in_progress.add(server_id)` (line 361). -/
def addSkip (st : BotState) (sid : Nat) : BotState :=
  { st with skipInProgress :=
      if sid ∈ st.skipInProgress then st.skipInProgress else sid :: st.skipInProgress }

/-- `self.skip_in_progress.discard(server_id)` (lines 811, 838). -/
def discardSkip (st : BotState) (sid : Nat) : BotState :=
  { st with skipInProgress := st.skipInProgress.erase sid }

/-- Length of the queue registered for `sid`, 0 when the session is absent. -/
def queueLen (st : BotState) (sid : Nat) : Nat :=
  match getSession st sid with
  | none => 0
  | some sd => sd.queue.length

/-! ## File Lifecycle Manager: `_try_remove_file` (lines 931-940)

The filesystem is modelled per attempt: attempt `i` of the loop observes
`env i`, which says whether `os.path.exists` returned false (`absent`),
the `os.remove` succeeded (`removed`), or a `PermissionError` /
`FileNotFoundError` was raised (`permError`). -/

/-- Outcome of one iteration of the `for _ in range(5)` retry loop. -/
inductive FsAttempt
  | absent
  | removed
  | permError
deriving Repr, DecidableEq

/-- One run of the retry loop body, counting down the remaining iterations.
Returns `(success, attemptsUsed, sleepsPerformed)`: `absent` and `removed`
both hit the `return True`, an exception falls through `time.sleep(1)` to the
next iteration, and exhausting the loop returns `False` (line 940). -/
def tryRemoveAux (env : Nat → FsAttempt) : Nat → Nat → Bool × Nat × Nat
  | _, 0 => (false, 0, 0)
  | i, r + 1 =>
    match env i with
    | .absent => (true, 1, 0)
    | .removed => (true, 1, 0)
    | .permError =>
      let rec' := tryRemoveAux env (i + 1) r
      (rec'.1, rec'.2.1 + 1, rec'.2.2 + 1)

/-- `_try_remove_file`: the retry loop runs at most 5 iterations. -/
def tryRemoveFile (env : Nat → FsAttempt) : Bool × Nat × Nat :=
  tryRemoveAux env 0 5

/-! ## Concurrency Guard / Dedup (lines 84-105 and the analogous guard in
every command)

Every handler is wrapped in
`if ctx.message.id in self.active_commands: return` /
`self.active_commands.add(id)` / `try: handler` / `finally: discard(id)`.
The framework may deliver events in any interleaving; a `begin` event is a
delivery reaching the guard (running the handler body when it passes), a
`finish` event is the corresponding `finally` block releasing the id. -/

/-- A dedup-relevant event: a command delivery hitting the guard, or a
handler execution completing its `finally` block. -/
inductive CmdEvent
  | begin' (id : Nat)
  | finish (id : Nat)
deriving Repr, DecidableEq

/-- The guard state: `self.active_commands` plus a log of the message ids
whose handler body actually ran (for counting executions). -/
structure CmdState where
  active : List Nat
  execLog : List Nat
deriving Repr, DecidableEq

/-- One dedup step.  A delivery whose id is already active returns without
executing (lines 85-86); otherwise the id is added and the handler body runs
(lines 87-90).  A finish discards the id (line 92). -/
def stepCmd (s : CmdState) : CmdEvent → CmdState
  | .begin' i =>
    if i ∈ s.active then s
    else { active := i :: s.active, execLog := s.execLog ++ [i] }
  | .finish i => { s with active := s.active.erase i }

/-- Run a whole delivery trace from a state. -/
def runTrace (s : CmdState) (evs : List CmdEvent) : CmdState :=
  evs.foldl stepCmd s

/-- Number of times the handler for message id `i` executed in a trace from
the initial (empty) guard state. -/
def execCount (evs : List CmdEvent) (i : Nat) : Nat :=
  (runTrace ⟨[], []⟩ evs).execLog.count i

/-! ## Skip command: `handle_skip` (lines 318-415)

External collaborators are modelled by booleans: `senseOk` is the result of
`sense_checks`, `voicePresent` says whether
`get_voice_client_from_channel_id` found a voice client, `playing` is
`voice_client.is_playing()`.  Effects on collaborators (messages sent,
`stop()`, `disconnect()`, file removals) are recorded in `SkipFx`. -/

/-- Observable effects of one `handle_skip` call, in particular the paths
passed to `_try_remove_file` (in call order). -/
structure SkipFx where
  messages : List String
  stopped : Bool
  disconnected : Bool
  removed : List String
deriving Repr, DecidableEq

/-- Python `str.isdigit()` for the ASCII fragment the bot cares about:
non-empty and all characters decimal digits. -/
def pyIsDigit (s : String) : Bool :=
  ¬ s.data = [] && s.data.all Char.isDigit

/-- Python `int(s)` on a digit string (line 341). -/
def digitsToNat (s : String) : Nat :=
  s.data.foldl (fun acc c => acc * 10 + (c.toNat - 48)) 0

/-- Python `str.lower()` on the ASCII fragment (line 342). -/
def pyLower (s : String) : String :=
  String.mk (s.data.map Char.toLower)

/-- The pop loop of a partial skip (lines 391-396): pop the first `n`
entries; a popped path is scheduled for removal only when no entry still in
the queue at that moment shares the path. -/
def skipPop : List Track → Nat → List Track × List String
  | q, 0 => (q, [])
  | [], _ + 1 => ([], [])
  | p :: rest, n + 1 =>
    let r := skipPop rest n
    if rest.all (fun x => ¬ x = p) then (r.1, p :: r.2) else (r.1, r.2)

/-- `handle_skip(ctx, args)` (lines 318-415).  `args` is the tuple of
command arguments; only `args[0]` is inspected. -/
def handle_skip (senseOk voicePresent playing : Bool) (sid : Nat)
    (args : List String) (st : BotState) : BotState × SkipFx :=
  if !senseOk then (st, ⟨[], false, false, []⟩)
  else
    match getSession st sid with
    | none => (st, ⟨["The bot isn't playing anything."], false, false, []⟩)
    | some sd =>
      if sd.queue.isEmpty then
        (st, ⟨["The bot isn't playing anything."], false, false, []⟩)
      else
        let q := sd.queue
        let nSkips : Nat :=
          match args with
          | [] => 1
          | a :: _ =>
            if pyIsDigit a then digitsToNat a
            else if pyLower a = "all" then q.length
            else 1
        let msg :=
          if q.length ≤ nSkips then "Skipping all remaining tracks."
          else if nSkips = 1 then "Skipping track."
          else "Skipping " ++ toString nSkips ++ " of " ++ toString q.length ++ " tracks."
        let nSkips := if q.length ≤ nSkips then q.length else nSkips
        if !voicePresent then
          (st, ⟨[msg, "Not connected to a voice channel."], false, false, []⟩)
        else
          let st := addSkip st sid
          if q.length ≤ nSkips then
            -- skip-all branch (lines 364-385): stop if playing, remember every
            -- path, clear the queue, disconnect, drop the session, remove files
            (removeSession st sid, ⟨[msg], playing, true, q⟩)
          else
            let r := skipPop q nSkips
            let st := setSession st sid { sd with queue := r.1 }
            if r.1.isEmpty then
              -- lines 399-407 (unreachable when nSkips < len(q), kept faithfully)
              (removeSession st sid, ⟨[msg], true, true, r.2⟩)
            else
              -- lines 409-415: stop current playback if playing, remove files
              (st, ⟨[msg], playing, false, r.2⟩)

/-! ## Volume command: `handle_volume` (lines 622-661)

The raw string argument is parsed with Python `int()`; `pyInt?` models that
parse on the sign-plus-digits fragment (returning `none` exactly when
`int()` raises `ValueError`). -/

/-- Python `int(s)` as a partial function: optional sign followed by a
non-empty digit string parses; everything else raises `ValueError`. -/
def pyInt? (s : String) : Option Int :=
  match s.toList with
  | '-' :: rest =>
    if rest ≠ [] ∧ rest.all Char.isDigit
    then some (-(digitsToNat (String.mk rest) : Int)) else none
  | '+' :: rest =>
    if rest ≠ [] ∧ rest.all Char.isDigit
    then some (digitsToNat (String.mk rest) : Int) else none
  | l =>
    if l ≠ [] ∧ l.all Char.isDigit
    then some (digitsToNat s : Int) else none

/-- `handle_volume(ctx, volume)`: `volume = none` models the bare command,
`some s` the raw string argument. -/
def handle_volume (senseOk : Bool) (sid : Nat) (volume : Option String)
    (st : BotState) : BotState × List String :=
  if !senseOk then (st, [])
  else
    match getSession st sid with
    | none => (st, ["The bot isn't playing anything."])
    | some sd =>
      if sd.queue.isEmpty then (st, ["The bot isn't playing anything."])
      else
        match volume with
        | none =>
          (st, ["Current volume: " ++ toString (100 * sd.volume).floor ++ "%"])
        | some s =>
          match pyInt? s with
          | none => (st, ["Please provide a valid number between 0 and 100."])
          | some v =>
            if v < 0 ∨ 100 < v then
              (st, ["Volume must be between 0 and 100."])
            else
              (setSession st sid { sd with volume := (v : Rat) / 100 },
               ["Volume set to " ++ toString v ++ "%"])

/-! ## Continuation callback: `_after_track_async` (lines 802-909)

The filesystem is modelled as `fs : String → Bool` (`os.path.exists`), the
audio-start collaborator as `playOk : String → Bool` (`false` models the
`except` branch at lines 891-899: `FFmpegOpusAudio`/`connection.play`
raising), and `connValid` is the check of line 815.  The recursive calls at
lines 870 and 896 are given a fuel parameter; running out of fuel is the
distinguished outcome `stalled`, which a sufficiently fuelled run never
reaches. -/

/-- What the callback did: nothing (guard returns at lines 810-818),
disconnected and tore the session down, or started playback of a path. -/
inductive AfterAction
  | noop
  | disconnect
  | play (path : String)
  | stalled
deriving Repr, DecidableEq

/-- Observable effects of a callback run: paths passed to
`_try_remove_file` (in call order) and the final action. -/
structure AfterFx where
  removed : List String
  action : AfterAction
deriving Repr, DecidableEq

/-- Result of one pass over the callback body: a final result, or a re-entry
into `_after_track_async` (the recursive awaits at lines 870 and 896) from an
updated state, carrying the files removed so far. -/
inductive StepResult
  | done (st : BotState) (fx : AfterFx)
  | retry (st : BotState) (removed : List String)
deriving Repr, DecidableEq

/-- One pass over the body of `_after_track_async` (lines 802-899). -/
def afterTrackStep (fs playOk : String → Bool) (connValid : Bool) (sid : Nat)
    (st : BotState) : StepResult :=
  match getSession st sid with
  | none =>
    -- lines 809-812: server no longer in queues
    .done (discardSkip st sid) ⟨[], .noop⟩
  | some sd =>
    if !connValid then
      -- lines 815-818: connection no longer valid (skip flag not touched)
      .done (removeSession st sid) ⟨[], .noop⟩
    else
      match sd.queue with
      | [] =>
        -- lines 823-828: empty queue, disconnect
        .done (removeSession st sid) ⟨[], .disconnect⟩
      | lastPath :: _ =>
        -- lines 830-843: remember the head; consume the skip flag, or pop
        -- the head on a natural completion without loop
        let isSkip := sid ∈ st.skipInProgress
        let st1 := if isSkip then discardSkip st sid else st
        let q1 := if isSkip then sd.queue
                  else if sd.loop then sd.queue else sd.queue.tail
        let st2 := setSession st1 sid { sd with queue := q1 }
        match q1 with
        | [] =>
          -- lines 846-854: queue emptied, disconnect, delete the last file
          .done (removeSession st2 sid)
            ⟨if sd.loop then [] else [lastPath], .disconnect⟩
        | nextPath :: q1rest =>
          -- lines 857-858: delete the last file if no remaining entry shares it
          let removedNow :=
            if !sd.loop && (nextPath :: q1rest).all (fun p => ¬ p = lastPath)
            then [lastPath] else []
          if !fs nextPath then
            -- lines 863-875: head file missing, drop it and retry or tear down
            let st3 := setSession st2 sid { sd with queue := q1rest }
            if q1rest.isEmpty then
              .done (removeSession st3 sid) ⟨removedNow, .disconnect⟩
            else
              .retry st3 removedNow
          else if playOk nextPath then
            -- lines 881-890: start playback of the new head
            .done st2 ⟨removedNow, .play nextPath⟩
          else
            -- lines 891-899: play raised, drop the head and retry or tear down
            let st3 := setSession st2 sid { sd with queue := q1rest }
            if q1rest.isEmpty then
              .done (removeSession st3 sid) ⟨removedNow, .disconnect⟩
            else
              .retry st3 removedNow

/-- `_after_track_async(error, connection, server_id)` with explicit fuel
for its self-recursion: each fuel unit is one pass over the body. -/
def afterTrackAux (fs playOk : String → Bool) (connValid : Bool) (sid : Nat) :
    Nat → BotState → BotState × AfterFx
  | 0, st => (st, ⟨[], .stalled⟩)
  | fuel + 1, st =>
    match afterTrackStep fs playOk connValid sid st with
    | .done st' fx => (st', fx)
    | .retry st' removed =>
      let r := afterTrackAux fs playOk connValid sid fuel st'
      (r.1, ⟨removed ++ r.2.removed, r.2.action⟩)

/-- One callback invocation, fuelled generously enough for every recursive
retry (each retry first removes a queue entry, so `queueLen + 1` calls
always suffice). -/
def afterTrackAsync (fs playOk : String → Bool) (connValid : Bool) (sid : Nat)
    (st : BotState) : BotState × AfterFx :=
  afterTrackAux fs playOk connValid sid (queueLen st sid + 1) st

/-! ## Registry lemmas -/

theorem getSession_discardSkip (st : BotState) (sid sid' : Nat) :
    getSession (discardSkip st sid) sid' = getSession st sid' := rfl

theorem getSession_addSkip (st : BotState) (sid sid' : Nat) :
    getSession (addSkip st sid) sid' = getSession st sid' := rfl

theorem skipInProgress_setSession (st : BotState) (sid : Nat) (sd : SessionData) :
    (setSession st sid sd).skipInProgress = st.skipInProgress := rfl

theorem skipInProgress_removeSession (st : BotState) (sid : Nat) :
    (removeSession st sid).skipInProgress = st.skipInProgress := rfl

theorem mem_addSkip (st : BotState) (sid : Nat) :
    sid ∈ (addSkip st sid).skipInProgress := by
  simp only [addSkip]
  by_cases h : sid ∈ st.skipInProgress <;> simp [h]

theorem getSession_removeSession_self (st : BotState) (sid : Nat) :
    getSession (removeSession st sid) sid = none := by
  simp only [getSession, removeSession, Option.map_eq_none']
  rw [List.find?_eq_none]
  intro x hx
  rw [List.mem_filter] at hx
  simpa using hx.2

theorem getSession_setSession_some {st : BotState} {sid : Nat} {sd0 : SessionData}
    (sd : SessionData) (h : getSession st sid = some sd0) :
    getSession (setSession st sid sd) sid = some sd := by
  rcases st with ⟨l, sk⟩
  simp only [getSession, setSession] at h ⊢
  induction l with
  | nil => simp at h
  | cons e t ih =>
    by_cases he : e.1 = sid
    · simp [List.find?_cons, he]
    · rw [List.find?_cons_of_neg _ (by simpa using he)] at h
      rw [List.map_cons, if_neg he, List.find?_cons_of_neg _ (by simpa using he)]
      exact ih h

/-- One pass of the callback over a registered session with a valid
connection either finishes — with a resolved action: playback of a head
whose file exists and whose start succeeded, or a teardown that removed the
session — or re-enters with the session's queue strictly shorter. -/
theorem afterTrackStep_spec (fs playOk : String → Bool) (sid : Nat) (st : BotState)
    (sd : SessionData) (hs : getSession st sid = some sd) :
    (∃ st' fx, afterTrackStep fs playOk true sid st = .done st' fx ∧
      fx.action ≠ .stalled ∧
      ((∃ p, fx.action = .play p ∧ fs p = true ∧ playOk p = true) ∨
        getSession st' sid = none)) ∨
    (∃ st' rem sd', afterTrackStep fs playOk true sid st = .retry st' rem ∧
      getSession st' sid = some sd' ∧ sd'.queue.length < sd.queue.length) := by
  obtain ⟨q, loopB, vol⟩ := sd
  simp only [afterTrackStep, hs, Bool.not_true, Bool.false_eq_true, if_false,
    List.tail_cons]
  cases q with
  | nil =>
    exact Or.inl ⟨_, _, rfl, by simp, Or.inr (getSession_removeSession_self st sid)⟩
  | cons lastPath qt =>
    by_cases hsk : sid ∈ st.skipInProgress
    · -- skip marker set: the queue is not popped here
      simp only [hsk, if_true]
      have hs1 : getSession (discardSkip st sid) sid = some ⟨lastPath :: qt, loopB, vol⟩ := hs
      have hs2 := getSession_setSession_some
        (⟨lastPath :: qt, loopB, vol⟩ : SessionData) hs1
      cases hfs : fs lastPath with
      | false =>
        simp only [hfs, Bool.not_false, if_true]
        cases hqt : qt.isEmpty with
        | true =>
          exact Or.inl ⟨_, _, rfl, by simp, Or.inr (getSession_removeSession_self _ sid)⟩
        | false =>
          refine Or.inr ⟨_, _, ⟨qt, loopB, vol⟩, rfl,
            getSession_setSession_some _ hs2, ?_⟩
          simp only [List.length_cons]; omega
      | true =>
        cases hpo : playOk lastPath with
        | true =>
          simp only [hfs, hpo, Bool.not_true, Bool.false_eq_true, if_false, if_true]
          exact Or.inl ⟨_, _, rfl, by simp, Or.inl ⟨lastPath, rfl, hfs, hpo⟩⟩
        | false =>
          simp only [hfs, hpo, Bool.not_true, Bool.false_eq_true, if_false]
          cases hqt : qt.isEmpty with
          | true =>
            exact Or.inl ⟨_, _, rfl, by simp, Or.inr (getSession_removeSession_self _ sid)⟩
          | false =>
            refine Or.inr ⟨_, _, ⟨qt, loopB, vol⟩, rfl,
              getSession_setSession_some _ hs2, ?_⟩
            simp only [List.length_cons]; omega
    · -- natural completion
      simp only [hsk, if_false]
      cases loopB with
      | true =>
        -- loop enabled: head retained
        have hs2' := getSession_setSession_some
          (⟨lastPath :: qt, true, vol⟩ : SessionData) hs
        simp only [eq_self_iff_true, if_true, ite_true]
        cases hfs : fs lastPath with
        | false =>
          simp only [hfs, Bool.not_false, if_true]
          cases hqt : qt.isEmpty with
          | true =>
            exact Or.inl ⟨_, _, rfl, by simp, Or.inr (getSession_removeSession_self _ sid)⟩
          | false =>
            refine Or.inr ⟨_, _, ⟨qt, true, vol⟩, rfl,
              getSession_setSession_some _ hs2', ?_⟩
            simp only [List.length_cons]; omega
        | true =>
          cases hpo : playOk lastPath with
          | true =>
            simp only [hfs, hpo, Bool.not_true, Bool.false_eq_true, if_false, if_true]
            exact Or.inl ⟨_, _, rfl, by simp, Or.inl ⟨lastPath, rfl, hfs, hpo⟩⟩
          | false =>
            simp only [hfs, hpo, Bool.not_true, Bool.false_eq_true, if_false]
            cases hqt : qt.isEmpty with
            | true =>
              exact Or.inl ⟨_, _, rfl, by simp, Or.inr (getSession_removeSession_self _ sid)⟩
            | false =>
              refine Or.inr ⟨_, _, ⟨qt, true, vol⟩, rfl,
                getSession_setSession_some _ hs2', ?_⟩
              simp only [List.length_cons]; omega
      | false =>
        -- loop disabled: head popped
        have hs2' := getSession_setSession_some
          (⟨qt, false, vol⟩ : SessionData) hs
        simp only [Bool.false_eq_true, if_false, List.tail_cons]
        cases qt with
        | nil =>
          exact Or.inl ⟨_, _, rfl, by simp, Or.inr (getSession_removeSession_self _ sid)⟩
        | cons nextPath q1rest =>
          cases hfs : fs nextPath with
          | false =>
            simp only [hfs, Bool.not_false, if_true]
            cases hqr : q1rest.isEmpty with
            | true =>
              exact Or.inl ⟨_, _, rfl, by simp, Or.inr (getSession_removeSession_self _ sid)⟩
            | false =>
              refine Or.inr ⟨_, _, ⟨q1rest, false, vol⟩, rfl,
                getSession_setSession_some _ hs2', ?_⟩
              simp only [List.length_cons]; omega
          | true =>
            cases hpo : playOk nextPath with
            | true =>
              simp only [hfs, hpo, Bool.not_true, Bool.false_eq_true, if_false, if_true]
              exact Or.inl ⟨_, _, rfl, by simp, Or.inl ⟨nextPath, rfl, hfs, hpo⟩⟩
            | false =>
              simp only [hfs, hpo, Bool.not_true, Bool.false_eq_true, if_false]
              cases hqr : q1rest.isEmpty with
              | true =>
                exact Or.inl ⟨_, _, rfl, by simp, Or.inr (getSession_removeSession_self _ sid)⟩
              | false =>
                refine Or.inr ⟨_, _, ⟨q1rest, false, vol⟩, rfl,
                  getSession_setSession_some _ hs2', ?_⟩
                simp only [List.length_cons]; omega

/-- Totality of the fuelled callback: with strictly more fuel than queue
entries, a run over a registered session with a valid connection never
exhausts its fuel, and ends either starting a playable track or with the
session gone from the registry. -/
theorem afterTrackAux_resolves (fs playOk : String → Bool) (sid : Nat) :
    ∀ (fuel : Nat) (st : BotState) (sd : SessionData),
      getSession st sid = some sd → sd.queue.length < fuel →
      (afterTrackAux fs playOk true sid fuel st).2.action ≠ .stalled ∧
      ((∃ p, (afterTrackAux fs playOk true sid fuel st).2.action = .play p ∧
          fs p = true ∧ playOk p = true) ∨
        getSession (afterTrackAux fs playOk true sid fuel st).1 sid = none) := by
  intro fuel
  induction fuel with
  | zero => intro st sd _ hlen; omega
  | succ n ih =>
    intro st sd hs hlen
    rcases afterTrackStep_spec fs playOk sid st sd hs with
      ⟨st', fx, he, hns, hd⟩ | ⟨st', rem, sd', he, hs', hlt⟩
    · simp only [afterTrackAux, he]
      exact ⟨hns, hd⟩
    · have hrec := ih st' sd' hs' (by omega)
      simp only [afterTrackAux, he]
      exact hrec

/-- The pop loop of a partial skip removes exactly the first `n` entries. -/
theorem skipPop_fst (q : List Track) (n : Nat) : (skipPop q n).1 = q.drop n := by
  induction q generalizing n with
  | nil => cases n <;> rfl
  | cons p rest ih =>
    cases n with
    | zero => rfl
    | succ m =>
      simp only [skipPop, List.drop_succ_cons]
      split <;> exact ih m

/-! ## Claims -/

/-- C4: for every registered session, whatever the queue contents and
on-disk situation, the continuation resolves within `queue length + 1`
passes (initial call plus at most queue-length re-entries): it never runs
out of fuel, and either starts playback of a track whose file exists (and
whose start succeeded) or leaves the session destroyed (absent from the
registry, hence with no queue). -/
theorem missing_file_never_stalls (fs playOk : String → Bool) (sid : Nat)
    (st : BotState) (sd : SessionData) (hs : getSession st sid = some sd) :
    (afterTrackAux fs playOk true sid (sd.queue.length + 1) st).2.action ≠ .stalled ∧
    ((∃ p, (afterTrackAux fs playOk true sid (sd.queue.length + 1) st).2.action = .play p ∧
        fs p = true ∧ playOk p = true) ∨
      getSession (afterTrackAux fs playOk true sid (sd.queue.length + 1) st).1 sid = none) :=
  afterTrackAux_resolves fs playOk sid (sd.queue.length + 1) st sd hs (Nat.lt_succ_self _)

/-- C4 witness: the spec scenario — queue `[A, B]`, `B`'s file missing when
`A` completes naturally — resolves without stalling. -/
theorem missing_file_never_stalls_witness :
    getSession ⟨[(1, ⟨["A", "B"], false, 1⟩)], []⟩ 1 = some ⟨["A", "B"], false, 1⟩ ∧
    ((afterTrackAux (fun p => p == "A") (fun _ => true) true 1 3
        ⟨[(1, ⟨["A", "B"], false, 1⟩)], []⟩).2.action ≠ .stalled ∧
      ((∃ p, (afterTrackAux (fun p => p == "A") (fun _ => true) true 1 3
          ⟨[(1, ⟨["A", "B"], false, 1⟩)], []⟩).2.action = .play p ∧
          (fun p => p == "A") p = true ∧ (fun _ : String => true) p = true) ∨
        getSession (afterTrackAux (fun p => p == "A") (fun _ => true) true 1 3
          ⟨[(1, ⟨["A", "B"], false, 1⟩)], []⟩).1 1 = none)) :=
  ⟨rfl, missing_file_never_stalls (fun p => p == "A") (fun _ => true) 1
    ⟨[(1, ⟨["A", "B"], false, 1⟩)], []⟩ ⟨["A", "B"], false, 1⟩ rfl⟩

/-- C6 counterexample: the seen-set guard only lives for the duration of one
execution (`finally: discard`), so a redelivery of message id 1 arriving
after the first execution completed runs the handler a second time — the
handler is not executed at most once over the whole run. -/
theorem dedup_at_most_once_cex :
    execCount [.begin' 1, .finish 1, .begin' 1] 1 = 2 ∧
    ¬ execCount [.begin' 1, .finish 1, .begin' 1] 1 ≤ 1 := by decide

/-- C6 (amended): the guard deduplicates only in-flight deliveries: a
redelivery of an id that is still in `active_commands` is dropped without
executing the handler (the whole guard step is the identity); once the
execution's `finally` discards the id, a later redelivery executes again. -/
theorem dedup_drops_inflight_redelivery (s : CmdState) (i : Nat)
    (h : i ∈ s.active) :
    stepCmd s (.begin' i) = s ∧
    ((stepCmd s (.begin' i)).execLog.count i = s.execLog.count i) := by
  simp [stepCmd, h]

/-- C6 witness: a concrete in-flight redelivery is a no-op. -/
theorem dedup_drops_inflight_redelivery_witness :
    stepCmd ⟨[1], [1]⟩ (.begin' 1) = ⟨[1], [1]⟩ ∧
    ((stepCmd ⟨[1], [1]⟩ (.begin' 1)).execLog.count 1 =
      (⟨[1], [1]⟩ : CmdState).execLog.count 1) :=
  dedup_drops_inflight_redelivery ⟨[1], [1]⟩ 1 (by decide)

/-- C7: `_try_remove_file` on an absent path returns success on the first
attempt with no retry and no backoff sleep; when every attempt raises a
permission/lock error it performs exactly the fixed bound of 5 attempts with
a 1-second sleep after each, and then returns failure instead of raising. -/
theorem try_remove_file_retry_spec (env : Nat → FsAttempt) :
    (env 0 = .absent → tryRemoveFile env = (true, 1, 0)) ∧
    ((∀ i, i < 5 → env i = .permError) → tryRemoveFile env = (false, 5, 5)) := by
  constructor
  · intro h
    simp [tryRemoveFile, tryRemoveAux, h]
  · intro h
    have h0 := h 0 (by omega)
    have h1 := h 1 (by omega)
    have h2 := h 2 (by omega)
    have h3 := h 3 (by omega)
    have h4 := h 4 (by omega)
    simp [tryRemoveFile, tryRemoveAux, h0, h1, h2, h3, h4]

/-- C7 witness: both hypotheses discharged at concrete environments. -/
theorem try_remove_file_retry_spec_witness :
    tryRemoveFile (fun _ => .absent) = (true, 1, 0) ∧
    tryRemoveFile (fun _ => .permError) = (false, 5, 5) :=
  ⟨(try_remove_file_retry_spec (fun _ => .absent)).1 rfl,
   (try_remove_file_retry_spec (fun _ => .permError)).2 (fun _ _ => rfl)⟩

/-- C8: when the session id is absent from the registry, the continuation
callback leaves the registry — hence every registered session's queue, loop
flag and volume — unchanged, removes no files, and starts no playback. -/
theorem callback_absent_session_noop (fs playOk : String → Bool)
    (connValid : Bool) (sid : Nat) (st : BotState)
    (hs : getSession st sid = none) :
    (afterTrackAsync fs playOk connValid sid st).1.queues = st.queues ∧
    (∀ sid', getSession (afterTrackAsync fs playOk connValid sid st).1 sid'
      = getSession st sid') ∧
    (afterTrackAsync fs playOk connValid sid st).2.removed = [] ∧
    (afterTrackAsync fs playOk connValid sid st).2.action = .noop := by
  have e : afterTrackAsync fs playOk connValid sid st
      = (discardSkip st sid, ⟨[], .noop⟩) := by
    simp [afterTrackAsync, queueLen, hs, afterTrackAux, afterTrackStep]
  rw [e]
  exact ⟨rfl, fun _ => rfl, rfl, rfl⟩

/-- C8 witness: a callback for an unregistered session id leaves a concrete
registry untouched. -/
theorem callback_absent_session_noop_witness :
    (afterTrackAsync (fun _ => true) (fun _ => true) true 2
      ⟨[(1, ⟨["A"], false, 1⟩)], []⟩).1.queues
      = (⟨[(1, ⟨["A"], false, 1⟩)], []⟩ : BotState).queues ∧
    (∀ sid', getSession (afterTrackAsync (fun _ => true) (fun _ => true) true 2
        ⟨[(1, ⟨["A"], false, 1⟩)], []⟩).1 sid'
      = getSession ⟨[(1, ⟨["A"], false, 1⟩)], []⟩ sid') ∧
    (afterTrackAsync (fun _ => true) (fun _ => true) true 2
      ⟨[(1, ⟨["A"], false, 1⟩)], []⟩).2.removed = [] ∧
    (afterTrackAsync (fun _ => true) (fun _ => true) true 2
      ⟨[(1, ⟨["A"], false, 1⟩)], []⟩).2.action = .noop :=
  callback_absent_session_noop (fun _ => true) (fun _ => true) true 2
    ⟨[(1, ⟨["A"], false, 1⟩)], []⟩ rfl

/-- C9: a volume command whose argument does not parse as an integer, or
parses to an integer outside `[0, 100]`, reports the error and leaves the
whole bot state — queue, loop flag and stored volume — exactly as it was. -/
theorem volume_invalid_preserves_state (sid : Nat) (st : BotState)
    (sd : SessionData) (s : String)
    (hs : getSession st sid = some sd) (hq : sd.queue.isEmpty = false)
    (hbad : pyInt? s = none ∨ ∃ v, pyInt? s = some v ∧ (v < 0 ∨ 100 < v)) :
    (handle_volume true sid (some s) st).1 = st ∧
    ((handle_volume true sid (some s) st).2
        = ["Please provide a valid number between 0 and 100."] ∨
      (handle_volume true sid (some s) st).2
        = ["Volume must be between 0 and 100."]) := by
  rcases hbad with h | ⟨v, hv, hrange⟩
  · simp [handle_volume, hs, hq, h]
  · simp only [handle_volume, hs, hq, hv, Bool.not_true, Bool.false_eq_true,
      if_false, ite_false]
    rw [if_pos hrange]
    exact ⟨rfl, Or.inr rfl⟩

/-- C9 witness: a non-numeric volume argument on a concrete state. -/
theorem volume_invalid_preserves_state_witness :
    (handle_volume true 1 (some "abc") ⟨[(1, ⟨["A"], false, 1⟩)], []⟩).1
      = ⟨[(1, ⟨["A"], false, 1⟩)], []⟩ ∧
    ((handle_volume true 1 (some "abc") ⟨[(1, ⟨["A"], false, 1⟩)], []⟩).2
        = ["Please provide a valid number between 0 and 100."] ∨
      (handle_volume true 1 (some "abc") ⟨[(1, ⟨["A"], false, 1⟩)], []⟩).2
        = ["Volume must be between 0 and 100."]) :=
  volume_invalid_preserves_state 1 ⟨[(1, ⟨["A"], false, 1⟩)], []⟩
    ⟨["A"], false, 1⟩ "abc" rfl rfl (Or.inl (by decide))

/-- C10: a skip command whose first argument is neither a digit string nor
(case-insensitively) the word "all" behaves exactly — same state, same
effects — like a skip with count 1. -/
theorem skip_unrecognized_arg_defaults_one (senseOk voicePresent playing : Bool)
    (sid : Nat) (st : BotState) (a : String) (rest : List String)
    (hd : pyIsDigit a = false) (hall : pyLower a ≠ "all") :
    handle_skip senseOk voicePresent playing sid (a :: rest) st =
    handle_skip senseOk voicePresent playing sid ["1"] st := by
  have h1 : pyIsDigit "1" = true := by decide
  have h2 : digitsToNat "1" = 1 := by decide
  simp only [handle_skip, hd, hall, h1, h2, Bool.false_eq_true, if_false,
    if_true, ite_true, ite_false]

/-- C10 witness: a junk argument behaves like skip 1 on a concrete state. -/
theorem skip_unrecognized_arg_defaults_one_witness :
    handle_skip true true true 1 ["foo"] ⟨[(1, ⟨["A", "B", "C"], false, 1⟩)], []⟩ =
    handle_skip true true true 1 ["1"] ⟨[(1, ⟨["A", "B", "C"], false, 1⟩)], []⟩ :=
  skip_unrecognized_arg_defaults_one true true true 1
    ⟨[(1, ⟨["A", "B", "C"], false, 1⟩)], []⟩ "foo" [] (by decide) (by decide)

/-- C2 counterexample: queue `[A, B]`, loop enabled, no SkipMarker, both
files present — the natural completion leaves the queue `[A, B]` and replays
`A`; the head is not moved to the tail and the second element `B` does not
become the track played next, contradicting the claim. -/
theorem loop_requeue_at_tail_cex :
    getSession (afterTrackAsync (fun _ => true) (fun _ => true) true 1
      ⟨[(1, ⟨["A", "B"], true, 1⟩)], []⟩).1 1 = some ⟨["A", "B"], true, 1⟩ ∧
    (afterTrackAsync (fun _ => true) (fun _ => true) true 1
      ⟨[(1, ⟨["A", "B"], true, 1⟩)], []⟩).2.action = .play "A" ∧
    ¬ getSession (afterTrackAsync (fun _ => true) (fun _ => true) true 1
      ⟨[(1, ⟨["A", "B"], true, 1⟩)], []⟩).1 1 = some ⟨["B", "A"], true, 1⟩ ∧
    (afterTrackAsync (fun _ => true) (fun _ => true) true 1
      ⟨[(1, ⟨["A", "B"], true, 1⟩)], []⟩).2.action ≠ .play "B" := by decide

/-- C2 (amended): with loop enabled and no SkipMarker set, a natural
completion whose head file is present and starts successfully preserves the
queue length — but by leaving the queue exactly unchanged: the old head
stays at the front and is replayed (it is not requeued at the tail, and the
second element does not become the next track); no file is deleted. -/
theorem loop_preserves_queue_replays_head (fs playOk : String → Bool)
    (sid : Nat) (st : BotState) (p : Track) (restq : List Track) (vol : Rat)
    (hs : getSession st sid = some ⟨p :: restq, true, vol⟩)
    (hskip : sid ∉ st.skipInProgress)
    (hfs : fs p = true) (hplay : playOk p = true) :
    getSession (afterTrackAsync fs playOk true sid st).1 sid
      = some ⟨p :: restq, true, vol⟩ ∧
    (afterTrackAsync fs playOk true sid st).2.action = .play p ∧
    (afterTrackAsync fs playOk true sid st).2.removed = [] ∧
    queueLen (afterTrackAsync fs playOk true sid st).1 sid
      = (p :: restq).length := by
  have hs2 : getSession (setSession st sid ⟨p :: restq, true, vol⟩) sid
      = some ⟨p :: restq, true, vol⟩ := getSession_setSession_some _ hs
  have estep : afterTrackStep fs playOk true sid st
      = .done (setSession st sid ⟨p :: restq, true, vol⟩) ⟨[], .play p⟩ := by
    simp [afterTrackStep, hs, hskip, hfs, hplay]
  have efuel : queueLen st sid = restq.length + 1 := by simp [queueLen, hs]
  have e2 : afterTrackAsync fs playOk true sid st
      = (setSession st sid ⟨p :: restq, true, vol⟩, ⟨[], .play p⟩) := by
    rw [afterTrackAsync, efuel]
    simp [afterTrackAux, estep]
  rw [e2]
  refine ⟨hs2, rfl, rfl, ?_⟩
  simp [queueLen, hs2]

/-- C2 witness: the spec scenario — queue `[A]`, loop enabled, natural
completion leaves `[A]` and restarts `A`, deleting nothing. -/
theorem loop_preserves_queue_replays_head_witness :
    getSession (afterTrackAsync (fun _ => true) (fun _ => true) true 1
      ⟨[(1, ⟨["A"], true, 1⟩)], []⟩).1 1 = some ⟨["A"], true, 1⟩ ∧
    (afterTrackAsync (fun _ => true) (fun _ => true) true 1
      ⟨[(1, ⟨["A"], true, 1⟩)], []⟩).2.action = .play "A" ∧
    (afterTrackAsync (fun _ => true) (fun _ => true) true 1
      ⟨[(1, ⟨["A"], true, 1⟩)], []⟩).2.removed = [] ∧
    queueLen (afterTrackAsync (fun _ => true) (fun _ => true) true 1
      ⟨[(1, ⟨["A"], true, 1⟩)], []⟩).1 1 = (["A"] : List Track).length :=
  loop_preserves_queue_replays_head (fun _ => true) (fun _ => true) 1
    ⟨[(1, ⟨["A"], true, 1⟩)], []⟩ "A" [] 1 rfl (by decide) rfl rfl

/-- C5 counterexample: queue `[A, B]`, loop disabled, no SkipMarker, `B`'s
file missing — the natural completion of `A` drops two entries (the popped
head and the unplayable `B`), destroying the session: the queue length goes
from 2 to 0, not to 1, so the queue is not shortened by exactly one. -/
theorem natural_completion_one_pop_cex :
    queueLen (afterTrackAsync (fun p => p == "A") (fun _ => true) true 1
      ⟨[(1, ⟨["A", "B"], false, 1⟩)], []⟩).1 1 = 0 ∧
    getSession (afterTrackAsync (fun p => p == "A") (fun _ => true) true 1
      ⟨[(1, ⟨["A", "B"], false, 1⟩)], []⟩).1 1 = none ∧
    ¬ queueLen (afterTrackAsync (fun p => p == "A") (fun _ => true) true 1
      ⟨[(1, ⟨["A", "B"], false, 1⟩)], []⟩).1 1 = 1 := by decide

/-- C5 (amended): with loop disabled and no SkipMarker set, a natural
completion shortens the queue by exactly one — the old head is popped and
discarded — provided that the new head (when the queue is still non-empty)
has its file on disk and starts successfully; when the new head is
unplayable, further entries are dropped (see the counterexample). -/
theorem natural_completion_pops_exactly_one (fs playOk : String → Bool)
    (sid : Nat) (st : BotState) (p : Track) (restq : List Track) (vol : Rat)
    (hs : getSession st sid = some ⟨p :: restq, false, vol⟩)
    (hskip : sid ∉ st.skipInProgress)
    (hrest : restq = [] ∨
      ∃ p2 r2, restq = p2 :: r2 ∧ fs p2 = true ∧ playOk p2 = true) :
    queueLen (afterTrackAsync fs playOk true sid st).1 sid = restq.length := by
  rcases hrest with hnil | ⟨p2, r2, hcons, hfs, hplay⟩
  · subst hnil
    have estep : afterTrackStep fs playOk true sid st
        = .done (removeSession (setSession st sid ⟨[], false, vol⟩) sid)
            ⟨[p], .disconnect⟩ := by
      simp [afterTrackStep, hs, hskip]
    have efuel : queueLen st sid = 1 := by simp [queueLen, hs]
    have e2 : afterTrackAsync fs playOk true sid st
        = (removeSession (setSession st sid ⟨[], false, vol⟩) sid,
           ⟨[p], .disconnect⟩) := by
      rw [afterTrackAsync, efuel]
      simp [afterTrackAux, estep]
    rw [e2]
    simp [queueLen, getSession_removeSession_self]
  · subst hcons
    have hs2 : getSession (setSession st sid ⟨p2 :: r2, false, vol⟩) sid
        = some ⟨p2 :: r2, false, vol⟩ := getSession_setSession_some _ hs
    have estep : afterTrackStep fs playOk true sid st
        = .done (setSession st sid ⟨p2 :: r2, false, vol⟩)
            ⟨if (p2 :: r2).all (fun x => ¬ x = p) then [p] else [], .play p2⟩ := by
      simp [afterTrackStep, hs, hskip, hfs, hplay]
    have efuel : queueLen st sid = r2.length + 2 := by simp [queueLen, hs]
    have e2 : afterTrackAsync fs playOk true sid st
        = (setSession st sid ⟨p2 :: r2, false, vol⟩,
           ⟨if (p2 :: r2).all (fun x => ¬ x = p) then [p] else [], .play p2⟩) := by
      rw [afterTrackAsync, efuel]
      simp [afterTrackAux, estep]
    rw [e2]
    simp [queueLen, hs2]

/-- C5 witness: queue `[A, B]` with both files present — the natural
completion leaves exactly one track. -/
theorem natural_completion_pops_exactly_one_witness :
    queueLen (afterTrackAsync (fun _ => true) (fun _ => true) true 1
      ⟨[(1, ⟨["A", "B"], false, 1⟩)], []⟩).1 1 = (["B"] : List Track).length :=
  natural_completion_pops_exactly_one (fun _ => true) (fun _ => true) 1
    ⟨[(1, ⟨["A", "B"], false, 1⟩)], []⟩ "A" ["B"] 1 rfl (by decide)
    (Or.inr ⟨"B", [], rfl, rfl, rfl⟩)

/-- C3: on a registered session with a non-empty queue, a skip whose first
argument is "all" (case-insensitively) or a digit string at least the queue
length takes the full-stop branch: the session is removed from the registry
(so its queue is gone), the voice client is disconnected, and every queued
track's path — all of them, in order — is scheduled for deletion. -/
theorem skip_all_empties_queue_destroys_session (playing : Bool) (sid : Nat)
    (st : BotState) (q : List Track) (loopB : Bool) (vol : Rat)
    (a : String) (rest : List String)
    (hs : getSession st sid = some ⟨q, loopB, vol⟩)
    (hq : q ≠ [])
    (ha : (pyIsDigit a = true ∧ q.length ≤ digitsToNat a) ∨
          (pyIsDigit a = false ∧ pyLower a = "all")) :
    getSession (handle_skip true true playing sid (a :: rest) st).1 sid = none ∧
    queueLen (handle_skip true true playing sid (a :: rest) st).1 sid = 0 ∧
    (handle_skip true true playing sid (a :: rest) st).2.removed = q ∧
    (handle_skip true true playing sid (a :: rest) st).2.disconnected = true := by
  have hqe : q.isEmpty = false := by
    cases q with
    | nil => exact absurd rfl hq
    | cons _ _ => rfl
  have key : (handle_skip true true playing sid (a :: rest) st)
      = (removeSession (addSkip st sid) sid,
         ⟨["Skipping all remaining tracks."], playing, true, q⟩) := by
    rcases ha with ⟨had, hge⟩ | ⟨had, hall⟩
    · simp [handle_skip, hs, hqe, had, hge]
    · simp [handle_skip, hs, hqe, had, hall]
  rw [key]
  exact ⟨getSession_removeSession_self _ sid,
    by simp [queueLen, getSession_removeSession_self], rfl, rfl⟩

/-- C3 witness: skip "all" on a concrete three-track queue. -/
theorem skip_all_empties_queue_destroys_session_witness :
    getSession (handle_skip true true true 1 ["all"]
      ⟨[(1, ⟨["A", "B", "C"], false, 1⟩)], []⟩).1 1 = none ∧
    queueLen (handle_skip true true true 1 ["all"]
      ⟨[(1, ⟨["A", "B", "C"], false, 1⟩)], []⟩).1 1 = 0 ∧
    (handle_skip true true true 1 ["all"]
      ⟨[(1, ⟨["A", "B", "C"], false, 1⟩)], []⟩).2.removed = ["A", "B", "C"] ∧
    (handle_skip true true true 1 ["all"]
      ⟨[(1, ⟨["A", "B", "C"], false, 1⟩)], []⟩).2.disconnected = true :=
  skip_all_empties_queue_destroys_session true 1
    ⟨[(1, ⟨["A", "B", "C"], false, 1⟩)], []⟩ ["A", "B", "C"] false 1 "all" []
    rfl (by decide) (Or.inr ⟨by decide, by decide⟩)

/-- C1: on a registered session whose queue retains at least one track past
the skip count (`n ≥ 1`, digit argument evaluating to `n`, with `n + 1 ≤`
queue length since `drop n` is non-empty), the skip removes exactly the
first `n` tracks from the front and sets the session's SkipMarker; the
completion callback fired by the resulting halt then consumes the marker —
the marker is gone afterwards — and does not pop the queue again: the new
head `c` is exactly the `(n+1)`-st original track, the queue after the
callback is still `drop n` of the original, and `c` is what gets played. -/
theorem skip_n_sets_marker_callback_no_double_pop (fs playOk : String → Bool)
    (sid : Nat) (st : BotState) (q restq : List Track) (c : Track)
    (loopB : Bool) (vol : Rat) (a : String) (rest : List String) (n : Nat)
    (hs : getSession st sid = some ⟨q, loopB, vol⟩)
    (hskip0 : sid ∉ st.skipInProgress)
    (ha : pyIsDigit a = true) (han : digitsToNat a = n) (hn : 1 ≤ n)
    (hdrop : q.drop n = c :: restq)
    (hfs : fs c = true) (hplay : playOk c = true) :
    getSession (handle_skip true true true sid (a :: rest) st).1 sid
      = some ⟨c :: restq, loopB, vol⟩ ∧
    sid ∈ (handle_skip true true true sid (a :: rest) st).1.skipInProgress ∧
    getSession (afterTrackAsync fs playOk true sid
        (handle_skip true true true sid (a :: rest) st).1).1 sid
      = some ⟨c :: restq, loopB, vol⟩ ∧
    sid ∉ (afterTrackAsync fs playOk true sid
        (handle_skip true true true sid (a :: rest) st).1).1.skipInProgress ∧
    (afterTrackAsync fs playOk true sid
        (handle_skip true true true sid (a :: rest) st).1).2.action = .play c := by
  have hlen : n < q.length := by
    rcases Nat.lt_or_ge n q.length with h | h
    · exact h
    · rw [List.drop_eq_nil_of_le h] at hdrop
      exact absurd hdrop (by simp)
  have hqe : q.isEmpty = false := by
    cases q with
    | nil => simp at hlen
    | cons _ _ => rfl
  have hnle : ¬ q.length ≤ n := by omega
  have e1 : (handle_skip true true true sid (a :: rest) st).1
      = setSession (addSkip st sid) sid ⟨c :: restq, loopB, vol⟩ := by
    simp [handle_skip, hs, hqe, ha, han, hnle, skipPop_fst, hdrop]
  have hs1 : getSession (setSession (addSkip st sid) sid ⟨c :: restq, loopB, vol⟩) sid
      = some ⟨c :: restq, loopB, vol⟩ :=
    getSession_setSession_some _ (hs : getSession (addSkip st sid) sid = some ⟨q, loopB, vol⟩)
  have hsk1 : sid ∈ (setSession (addSkip st sid) sid
      ⟨c :: restq, loopB, vol⟩).skipInProgress := mem_addSkip st sid
  have estep : afterTrackStep fs playOk true sid
        (setSession (addSkip st sid) sid ⟨c :: restq, loopB, vol⟩)
      = .done (setSession (discardSkip (setSession (addSkip st sid) sid
            ⟨c :: restq, loopB, vol⟩) sid) sid ⟨c :: restq, loopB, vol⟩)
          ⟨[], .play c⟩ := by
    simp [afterTrackStep, hs1, hsk1, hfs, hplay]
  have efuel : queueLen (setSession (addSkip st sid) sid
      ⟨c :: restq, loopB, vol⟩) sid = restq.length + 1 := by
    simp [queueLen, hs1]
  have e2 : afterTrackAsync fs playOk true sid
        (setSession (addSkip st sid) sid ⟨c :: restq, loopB, vol⟩)
      = (setSession (discardSkip (setSession (addSkip st sid) sid
            ⟨c :: restq, loopB, vol⟩) sid) sid ⟨c :: restq, loopB, vol⟩,
         ⟨[], .play c⟩) := by
    rw [afterTrackAsync, efuel]
    simp [afterTrackAux, estep]
  have hmarker : (setSession (discardSkip (setSession (addSkip st sid) sid
        ⟨c :: restq, loopB, vol⟩) sid) sid
        ⟨c :: restq, loopB, vol⟩).skipInProgress = st.skipInProgress := by
    show ((addSkip st sid).skipInProgress).erase sid = st.skipInProgress
    simp [addSkip, hskip0]
  rw [e1, e2]
  exact ⟨hs1, hsk1, getSession_setSession_some _ hs1, by rw [hmarker]; exact hskip0, rfl⟩

/-- C1 witness: the spec scenario — queue `[A, B, C]`, skip(2) leaves `[C]`
with the marker set, and the halt-fired callback consumes the marker and
plays `C` without popping again. -/
theorem skip_n_sets_marker_callback_no_double_pop_witness :
    getSession (handle_skip true true true 1 ["2"]
      ⟨[(1, ⟨["A", "B", "C"], false, 1⟩)], []⟩).1 1 = some ⟨["C"], false, 1⟩ ∧
    1 ∈ (handle_skip true true true 1 ["2"]
      ⟨[(1, ⟨["A", "B", "C"], false, 1⟩)], []⟩).1.skipInProgress ∧
    getSession (afterTrackAsync (fun _ => true) (fun _ => true) true 1
        (handle_skip true true true 1 ["2"]
          ⟨[(1, ⟨["A", "B", "C"], false, 1⟩)], []⟩).1).1 1
      = some ⟨["C"], false, 1⟩ ∧
    1 ∉ (afterTrackAsync (fun _ => true) (fun _ => true) true 1
        (handle_skip true true true 1 ["2"]
          ⟨[(1, ⟨["A", "B", "C"], false, 1⟩)], []⟩).1).1.skipInProgress ∧
    (afterTrackAsync (fun _ => true) (fun _ => true) true 1
        (handle_skip true true true 1 ["2"]
          ⟨[(1, ⟨["A", "B", "C"], false, 1⟩)], []⟩).1).2.action = .play "C" :=
  skip_n_sets_marker_callback_no_double_pop (fun _ => true) (fun _ => true) 1
    ⟨[(1, ⟨["A", "B", "C"], false, 1⟩)], []⟩ ["A", "B", "C"] [] "C" false 1
    "2" [] 2 rfl (by decide) (by decide) (by decide) (by decide) rfl rfl rfl

end MusicBot
